import Mathlib

/-!
Shallow embedding of the supervision core of the hydra-launcher repository:
the MCP health-check module (`src-tauri/src/mcp/health.rs`) and the
interactive Claude CLI session manager (`src-tauri/src/process/session.rs`).

The embedding is state-passing: every Rust method that mutates `&mut self`
becomes a Lean function from the old state to (result, new state).  Effects
of the operating system (TCP connection attempts, task joins, process
spawning, killing, pipe writes) are passed in as explicit outcome values,
so each source function becomes a pure function of its state and of what
the OS did.
-/

namespace Hydra

/-! ## Health-check data model (`mcp/health.rs`) -/

/-- Enum `McpStatus` from `mcp/health.rs`: status of one MCP server probe. -/
inductive McpStatus where
  | online
  | offline
  | error
  deriving DecidableEq, Repr

/-- Structure `McpHealthResult` from `mcp/health.rs`: outcome of one probe.
`port` is a `u16` in the source; probes use only in-range constants, so it
is carried as a `Nat`. -/
structure McpHealthResult where
  name : String
  port : Nat
  status : McpStatus
  response_time_ms : Option Nat
  error : Option String
  deriving DecidableEq, Repr

/-- Outcome of the one TCP connection attempt made by `check_port`:
either the connection completed (with the elapsed milliseconds measured
from attempt start), or it failed with a transport error before the
2-second timeout, or the timeout elapsed first.  These are the three arms
of the `match timeout(..., TcpStream::connect(..)).await` in the source. -/
inductive ConnOutcome where
  | connected (elapsed_ms : Nat)
  | refused (err : String)
  | timedOut
  deriving DecidableEq, Repr

/-- Function `check_port` from `mcp/health.rs`: classifies the outcome of the single
connection attempt.  `Ok(Ok(_))` yields the elapsed time, `Ok(Err(e))`
yields `"Connection failed: {e}"`, `Err(_)` (timeout) yields
`"Connection timeout"`. -/
def check_port (outcome : ConnOutcome) : Except String Nat :=
  match outcome with
  | .connected elapsed_ms => .ok elapsed_ms
  | .refused err => .error ("Connection failed: " ++ err)
  | .timedOut => .error "Connection timeout"

/-- Function `check_mcp_server` from `mcp/health.rs`: wraps one `check_port` probe
into an `McpHealthResult`; success becomes `Online` with the response time,
failure becomes `Offline` carrying the error string. -/
def check_mcp_server (name : String) (port : Nat) (outcome : ConnOutcome) :
    McpHealthResult :=
  match check_port outcome with
  | .ok response_time =>
      { name := name, port := port, status := .online,
        response_time_ms := some response_time, error := none }
  | .error e =>
      { name := name, port := port, status := .offline,
        response_time_ms := none, error := some e }

/-- The fixed server list hard-coded in `check_all_mcp_servers`. -/
def mcp_servers : List (String × Nat) :=
  [("Serena", 9000), ("Desktop Commander", 8100), ("Playwright", 5200)]

/-- Function `check_all_mcp_servers` from `mcp/health.rs`: spawns one task per
server and awaits the task handles in order.  `env` gives the connection
outcome each spawned probe observes; `join` gives, per target, `none` when
the task delivers its result and `some e` when awaiting the handle fails
with join error `e`, in which case the source pushes the `"Unknown"`/port-0
placeholder with `status = Error`.  The whole batch returns `Ok(results)`. -/
def check_all_mcp_servers (env : String × Nat → ConnOutcome)
    (join : String × Nat → Option String) :
    Except String (List McpHealthResult) :=
  .ok (mcp_servers.map (fun t =>
    match join t with
    | none => check_mcp_server t.1 t.2 (env t)
    | some e =>
        { name := "Unknown", port := 0, status := .error,
          response_time_ms := none,
          error := some ("Task failed: " ++ e) }))

/-- The `HealthResult` invariant stated in the spec (§3):
`status = Online ⇔ response_time_ms present ∧ error absent`, and
`status = Offline ∨ Error ⇒ response_time_ms absent`. -/
def healthInvariant (r : McpHealthResult) : Prop :=
  (r.status = .online ↔ r.response_time_ms.isSome ∧ r.error.isNone)
  ∧ ((r.status = .offline ∨ r.status = .error) → r.response_time_ms = none)

instance (r : McpHealthResult) : Decidable (healthInvariant r) := by
  unfold healthInvariant
  infer_instance

/-! ## Session data model (`process/session.rs`) -/

/-- The child process's stdin pipe (`ChildStdin`): `data` is everything
written to it so far, `flushes` counts completed `flush` calls. -/
structure StdinPipe where
  data : String
  flushes : Nat
  deriving DecidableEq, Repr

/-- A spawned child process (`std::process::Child`), reduced to what the
session code touches: its OS pid, the optional stdin pipe, and the
optional stdout stream (the list of complete lines the child will emit,
in emission order).  `stdout` is `take()`-n by `start`. -/
structure Child where
  pid : Nat
  stdin : Option StdinPipe
  stdout : Option (List String)
  deriving DecidableEq, Repr

/-- Structure `ClaudeSession` from `process/session.rs`. -/
structure ClaudeSession where
  process : Option Child
  output_buffer : List String
  is_running : Bool
  deriving DecidableEq, Repr

namespace ClaudeSession

/-- Constructor `ClaudeSession::new`. -/
def new : ClaudeSession :=
  { process := none, output_buffer := [], is_running := false }

/-- Method `ClaudeSession::start`.  `spawn` is the outcome of
`Command::new("claude").current_dir(hydra_path).args(&args)...spawn()`,
as a function of the argument list and the working directory: `Ok` gives
the spawned child, `Err e` the OS error (giving the session error
`"Failed to start Claude CLI: {e}"`).  On success the child's stdout is
taken for the background reader thread and the child handle is stored. -/
def start (s : ClaudeSession) (yolo_mode : Bool) (hydra_path : String)
    (spawn : List String → String → Except String Child) :
    Except String Unit × ClaudeSession :=
  if s.is_running then
    (.error "Session already running", s)
  else
    let args := if yolo_mode then ["--dangerously-skip-permissions"] else []
    match spawn args hydra_path with
    | .error e => (.error ("Failed to start Claude CLI: " ++ e), s)
    | .ok child =>
        (.ok (),
          { s with process := some { child with stdout := none },
                   is_running := true })

/-- One step of the background reader thread spawned by `start`: it reads
one complete line from the child's stdout and pushes it onto the shared
output buffer. -/
def appendOutput (s : ClaudeSession) (line : String) : ClaudeSession :=
  { s with output_buffer := s.output_buffer ++ [line] }

/-- The background reader thread appending a whole sequence of lines, in
the order the child emitted them. -/
def appendOutputs (s : ClaudeSession) (lines : List String) : ClaudeSession :=
  lines.foldl appendOutput s

/-- Method `ClaudeSession::send`.  `writeErr`/`flushErr` are the outcomes of the
`writeln!` and `flush` calls on the child's stdin (`none` = success).  No
process handle gives `"No active session"`; a handle without stdin gives
`"No stdin available"`; otherwise `writeln!` appends the message plus a
newline to the pipe and `flush` flushes it. -/
def send (s : ClaudeSession) (message : String)
    (writeErr flushErr : Option String) :
    Except String Unit × ClaudeSession :=
  match s.process with
  | none => (.error "No active session", s)
  | some child =>
    match child.stdin with
    | none => (.error "No stdin available", s)
    | some stdin =>
      match writeErr with
      | some e => (.error ("Failed to send message: " ++ e), s)
      | none =>
        let written : StdinPipe :=
          { data := stdin.data ++ message ++ "\n", flushes := stdin.flushes }
        match flushErr with
        | some e =>
            (.error ("Failed to flush: " ++ e),
              { s with process := some { child with stdin := some written } })
        | none =>
            (.ok (),
              { s with process := some { child with
                  stdin := some { written with flushes := written.flushes + 1 } } })

/-- Method `ClaudeSession::read_output`: clones the buffer contents, clears the
buffer, and returns the clone (all under one lock acquisition). -/
def read_output (s : ClaudeSession) : List String × ClaudeSession :=
  (s.output_buffer, { s with output_buffer := [] })

/-- Method `ClaudeSession::stop`.  `killErr` is the outcome of `child.kill()`
(`none` = success), consulted only when a process handle is held.  The
third component records the pids `kill` was invoked on during this call.
A kill failure propagates via `?`, skipping the `self.process = None;
self.is_running = false;` lines, so the state is returned unchanged. -/
def stop (s : ClaudeSession) (killErr : Option String) :
    Except String Unit × ClaudeSession × List Nat :=
  match s.process with
  | some child =>
    match killErr with
    | some e => (.error ("Failed to kill process: " ++ e), s, [child.pid])
    | none =>
        (.ok (), { s with process := none, is_running := false }, [child.pid])
  | none => (.ok (), { s with process := none, is_running := false }, [])

/-- Destructor `impl Drop for ClaudeSession`: `let _ = self.stop();` — invokes `stop`
and discards its result.  Returns the final session state and the pids
`kill` was invoked on. -/
def drop (s : ClaudeSession) (killErr : Option String) :
    ClaudeSession × List Nat :=
  ((s.stop killErr).2.1, (s.stop killErr).2.2)

end ClaudeSession

/-! ## Theorems about the health-check module -/

/-- The timeout error string produced by `check_port` is distinct from
every connection-failure error string it can produce. -/
theorem connection_failed_ne_timeout (e : String) :
    ("Connection failed: " ++ e) ≠ "Connection timeout" := by
  intro h
  have hlen : ("Connection failed: " ++ e).length =
      ("Connection timeout" : String).length := congrArg String.length h
  rw [String.length_append] at hlen
  have h1 : ("Connection failed: " : String).length = 19 := rfl
  have h2 : ("Connection timeout" : String).length = 18 := rfl
  omega

/-- C8: every probe has exactly one of three mutually exclusive outcomes —
success carrying the elapsed time, failure carrying the transport error,
or failure with the distinct "timed out" reason — and the timeout failure
is distinguishable from every connection-refused failure. -/
theorem check_port_trichotomy (o : ConnOutcome) :
    ((∃ t, o = .connected t ∧ check_port o = .ok t)
      ∨ (∃ err, o = .refused err
          ∧ check_port o = .error ("Connection failed: " ++ err))
      ∨ (o = .timedOut ∧ check_port o = .error "Connection timeout"))
    ∧ (∀ err, ("Connection failed: " ++ err) ≠ "Connection timeout") := by
  constructor
  · cases o with
    | connected t => exact Or.inl ⟨t, rfl, rfl⟩
    | refused err => exact Or.inr (Or.inl ⟨err, rfl, rfl⟩)
    | timedOut => exact Or.inr (Or.inr ⟨rfl, rfl⟩)
  · exact connection_failed_ne_timeout

/-- Witness for C8: the trichotomy evaluated at the timeout outcome. -/
theorem check_port_trichotomy_witness :
    check_port .timedOut = .error "Connection timeout" := by
  rcases check_port_trichotomy ConnOutcome.timedOut with ⟨h | h | h, _⟩
  · rcases h with ⟨t, ht, _⟩
    cases ht
  · rcases h with ⟨e, he, _⟩
    cases he
  · exact h.2

/-- C2: the batch health check never fails outright: it returns `Ok` with
exactly one result per target; a target whose probe fails (while its task
still delivers) yields that target's name and port with `status = Offline`,
and a target whose task fails to deliver yields the placeholder with
`status = Error`, name `"Unknown"`, port `0` — no target is dropped. -/
theorem check_all_never_fails (env : String × Nat → ConnOutcome)
    (join : String × Nat → Option String) :
    ∃ rs : List McpHealthResult,
      check_all_mcp_servers env join = .ok rs
      ∧ rs.length = mcp_servers.length
      ∧ ∀ i : Fin mcp_servers.length,
          ∃ hr : (i : Nat) < rs.length,
            (join (mcp_servers.get i) = none →
              ∀ e, check_port (env (mcp_servers.get i)) = .error e →
                (rs.get ⟨i, hr⟩).name = (mcp_servers.get i).1
                ∧ (rs.get ⟨i, hr⟩).port = (mcp_servers.get i).2
                ∧ (rs.get ⟨i, hr⟩).status = .offline)
            ∧ (∀ e, join (mcp_servers.get i) = some e →
                rs.get ⟨i, hr⟩ =
                  { name := "Unknown", port := 0, status := .error,
                    response_time_ms := none,
                    error := some ("Task failed: " ++ e) }) := by
  refine ⟨_, rfl, by simp [mcp_servers], ?_⟩
  intro i
  fin_cases i <;>
    (refine ⟨by simp [mcp_servers], fun hj e he => ?_, fun e hj => ?_⟩ <;>
      first
        | (simp [mcp_servers] at hj he
           simp [mcp_servers, hj, he, check_mcp_server])
        | (simp [mcp_servers] at hj
           simp [mcp_servers, hj]))

/-- Witness for C2: the batch evaluated where every probe is refused and
every task delivers. -/
theorem check_all_never_fails_witness :
    ∃ rs : List McpHealthResult,
      check_all_mcp_servers (fun _ => .refused "conn refused") (fun _ => none)
          = .ok rs
      ∧ rs.length = mcp_servers.length := by
  rcases check_all_never_fails (fun _ => .refused "conn refused") (fun _ => none)
    with ⟨rs, hok, hlen, _⟩
  exact ⟨rs, hok, hlen⟩

/-- C4: every `McpHealthResult` the core constructs — per-probe results
from `check_mcp_server` and coordinator placeholders inside
`check_all_mcp_servers` — satisfies the spec invariant relating `status`,
`response_time_ms` and `error`. -/
theorem health_results_invariant :
    (∀ name port outcome, healthInvariant (check_mcp_server name port outcome))
    ∧ (∀ env join rs, check_all_mcp_servers env join = .ok rs →
        ∀ r ∈ rs, healthInvariant r) := by
  constructor
  · intro name port outcome
    unfold check_mcp_server
    cases h : check_port outcome <;> simp [healthInvariant]
  · intro env join rs hrs r hr
    have hrs2 : rs = mcp_servers.map (fun t =>
        match join t with
        | none => check_mcp_server t.1 t.2 (env t)
        | some e =>
            { name := "Unknown", port := 0, status := .error,
              response_time_ms := none,
              error := some ("Task failed: " ++ e) }) := by
      cases hrs
      rfl
    subst hrs2
    rcases List.mem_map.mp hr with ⟨t, _, ht⟩
    cases hj : join t with
    | none =>
        rw [hj] at ht
        cases ht
        unfold check_mcp_server
        cases h : check_port (env t) <;> simp [healthInvariant]
    | some e =>
        rw [hj] at ht
        cases ht
        simp [healthInvariant]

/-- Witness for C4: the invariant evaluated at one concrete probe result. -/
theorem health_results_invariant_witness :
    healthInvariant (check_mcp_server "Serena" 9000 (.connected 5)) :=
  health_results_invariant.1 "Serena" 9000 (.connected 5)

/-! ## Theorems about the session lifecycle -/

/-- A concrete session in the `Running` state holding a process handle,
used to evaluate the lifecycle theorems. -/
def runningSession : ClaudeSession :=
  { process := some { pid := 42, stdin := some { data := "", flushes := 0 },
                      stdout := none },
    output_buffer := [], is_running := true }

/-- A spawn outcome that always fails with the OS error `"mock"`. -/
def spawnFail : List String → String → Except String Child :=
  fun _ _ => .error "mock"

/-- A spawn outcome that always yields a fresh child with piped stdin. -/
def spawnOk : List String → String → Except String Child :=
  fun _ _ => .ok { pid := 7, stdin := some { data := "", flushes := 0 },
                   stdout := some [] }

/-- Counterexample to C1: on a running session holding a handle, a failing
`kill` makes `stop` return early through `?`, so the recorded state is NOT
forced to Idle — the running flag stays true and the handle is retained. -/
theorem stop_kill_failure_counterexample :
    (runningSession.stop (some "Operation not permitted")).2.1.is_running = true
    ∧ (runningSession.stop (some "Operation not permitted")).2.1.process
        = runningSession.process
    ∧ (runningSession.stop (some "Operation not permitted")).1
        = .error "Failed to kill process: Operation not permitted" :=
  ⟨rfl, rfl, rfl⟩

/-- C1 (amended): if terminating the process fails, `stop` returns the
termination error and leaves the session state unchanged — still holding
the process handle with the running flag as it was — so on a running
session a subsequent `start` is rejected with `AlreadyRunning`. -/
theorem stop_kill_failure_keeps_state (s : ClaudeSession) (child : Child)
    (e : String) (hp : s.process = some child) :
    (s.stop (some e)).1 = .error ("Failed to kill process: " ++ e)
    ∧ (s.stop (some e)).2.1 = s
    ∧ (s.is_running = true → ∀ y p sp,
        ((s.stop (some e)).2.1.start y p sp).1
          = .error "Session already running") := by
  unfold ClaudeSession.stop
  rw [hp]
  refine ⟨rfl, rfl, fun hr y p sp => ?_⟩
  unfold ClaudeSession.start
  rw [hr]
  rfl

/-- Witness for C1 (amended): evaluated on the concrete running session. -/
theorem stop_kill_failure_keeps_state_witness :
    (runningSession.stop (some "denied")).1
        = .error ("Failed to kill process: " ++ "denied")
    ∧ (runningSession.stop (some "denied")).2.1 = runningSession
    ∧ (((runningSession.stop (some "denied")).2.1.start false "/tmp" spawnOk).1
        = .error "Session already running") :=
  ⟨(stop_kill_failure_keeps_state runningSession _ "denied" rfl).1,
   (stop_kill_failure_keeps_state runningSession _ "denied" rfl).2.1,
   (stop_kill_failure_keeps_state runningSession _ "denied" rfl).2.2 rfl
     false "/tmp" spawnOk⟩

/-- C3: `read_output` returns the buffered lines in append order and
clears the buffer in the same operation; with no appends in between, an
immediately following second `read_output` returns the empty sequence. -/
theorem read_output_drains (s : ClaudeSession) (lines : List String) :
    ((s.appendOutputs lines).read_output).1 = s.output_buffer ++ lines
    ∧ ((s.appendOutputs lines).read_output).2.output_buffer = []
    ∧ (((s.appendOutputs lines).read_output).2.read_output).1 = [] := by
  refine ⟨?_, rfl, rfl⟩
  show (s.appendOutputs lines).output_buffer = s.output_buffer ++ lines
  induction lines generalizing s with
  | nil => simp [ClaudeSession.appendOutputs]
  | cons l ls ih =>
      rw [ClaudeSession.appendOutputs, List.foldl_cons,
        ← ClaudeSession.appendOutputs, ih]
      simp [ClaudeSession.appendOutput]

/-- C5: `start` on a session in the `Running` state fails with the
`AlreadyRunning` error, leaves the session unchanged (it still owns its
single process), and never consults the spawn primitive — the result is
the same whatever spawning would have done. -/
theorem start_already_running (s : ClaudeSession) (y : Bool) (p : String)
    (sp sp2 : List String → String → Except String Child)
    (h : s.is_running = true) :
    (s.start y p sp).1 = .error "Session already running"
    ∧ (s.start y p sp).2 = s
    ∧ s.start y p sp = s.start y p sp2 := by
  unfold ClaudeSession.start
  rw [h]
  exact ⟨rfl, rfl, rfl⟩

/-- Witness for C5: evaluated on the concrete running session with two
different spawn outcomes. -/
theorem start_already_running_witness :
    (runningSession.start true "/tmp" spawnFail).1
        = .error "Session already running"
    ∧ (runningSession.start true "/tmp" spawnFail).2 = runningSession
    ∧ runningSession.start true "/tmp" spawnFail
        = runningSession.start true "/tmp" spawnOk :=
  start_already_running runningSession true "/tmp" spawnFail spawnOk rfl

/-- C6: `send` fails with the `NotRunning` error on an `Idle` session
(no handle held), fails with the `NoInputChannel` error when the stdin
pipe was not established, and otherwise writes the message plus a newline
to the child's stdin and flushes it. -/
theorem send_behaviour (s : ClaudeSession) (message : String) :
    (s.process = none →
      ∀ we fe, s.send message we fe = (.error "No active session", s))
    ∧ (∀ child, s.process = some child → child.stdin = none →
        ∀ we fe, s.send message we fe = (.error "No stdin available", s))
    ∧ (∀ child pipe, s.process = some child → child.stdin = some pipe →
        s.send message none none =
          (.ok (), { s with process := some { child with
              stdin := some { data := pipe.data ++ message ++ "\n",
                              flushes := pipe.flushes + 1 } } })) := by
  refine ⟨fun hp we fe => ?_, fun child hp hs we fe => ?_,
    fun child pipe hp hs => ?_⟩
  · simp [ClaudeSession.send, hp]
  · simp [ClaudeSession.send, hp, hs]
  · simp [ClaudeSession.send, hp, hs]

/-- Witness for C6: `send` before any `start` (on the freshly created
session) fails with the `NotRunning` error. -/
theorem send_behaviour_witness :
    ClaudeSession.new.send "hello" none none
        = (.error "No active session", ClaudeSession.new) :=
  (send_behaviour ClaudeSession.new "hello").1 rfl none none

/-- C7: `stop` on a session already in the `Idle` state succeeds as a
no-op — no kill is attempted, the state stays `Idle` — and a second
`stop` right after succeeds as well. -/
theorem stop_idle_noop (s : ClaudeSession) (k1 k2 : Option String)
    (hp : s.process = none) (hr : s.is_running = false) :
    (s.stop k1).1 = .ok ()
    ∧ (s.stop k1).2.1 = s
    ∧ (s.stop k1).2.2 = []
    ∧ ((s.stop k1).2.1.stop k2).1 = .ok () := by
  unfold ClaudeSession.stop
  rw [hp]
  refine ⟨rfl, ?_, rfl, ?_⟩
  · cases s
    simp_all
  · simp [hp]

/-- Witness for C7: two consecutive `stop` calls on the fresh session. -/
theorem stop_idle_noop_witness :
    (ClaudeSession.new.stop none).1 = .ok ()
    ∧ (ClaudeSession.new.stop none).2.1 = ClaudeSession.new
    ∧ ((ClaudeSession.new.stop none).2.1.stop none).1 = .ok () :=
  ⟨(stop_idle_noop ClaudeSession.new none none rfl rfl).1,
   (stop_idle_noop ClaudeSession.new none none rfl rfl).2.1,
   (stop_idle_noop ClaudeSession.new none none rfl rfl).2.2.2⟩

/-- C9: owner teardown (`Drop`) invokes `stop` unconditionally: it is
exactly the state effect of `stop` with the result discarded; whenever a
process handle is held, `kill` is invoked on that process, and when the
kill succeeds the final state retains no process handle. -/
theorem drop_invokes_stop (s : ClaudeSession) (k : Option String) :
    s.drop k = ((s.stop k).2.1, (s.stop k).2.2)
    ∧ (∀ child, s.process = some child → (s.drop k).2 = [child.pid])
    ∧ (k = none →
        (s.drop k).1.process = none ∧ (s.drop k).1.is_running = false) := by
  refine ⟨rfl, fun child hp => ?_, fun hk => ?_⟩
  · unfold ClaudeSession.drop ClaudeSession.stop
    rw [hp]
    cases k <;> rfl
  · subst hk
    unfold ClaudeSession.drop ClaudeSession.stop
    cases hp : s.process <;> exact ⟨rfl, rfl⟩

/-- Witness for C9: dropping the concrete running session with a
succeeding kill invokes `kill` on its pid and leaves no handle. -/
theorem drop_invokes_stop_witness :
    (runningSession.drop none).2 = [42]
    ∧ (runningSession.drop none).1.process = none
    ∧ (runningSession.drop none).1.is_running = false :=
  ⟨(drop_invokes_stop runningSession none).2.1 _ rfl,
   ((drop_invokes_stop runningSession none).2.2 rfl).1,
   ((drop_invokes_stop runningSession none).2.2 rfl).2⟩

/-- C10: if the process spawn fails, `start` returns the `SpawnFailed`
error and the session is unchanged — still not running, holding no
process handle it did not already hold, output buffer untouched — and a
subsequent `start` with a succeeding spawn is accepted. -/
theorem start_spawn_failure_atomic (s : ClaudeSession) (y : Bool) (p : String)
    (sp : List String → String → Except String Child) (e : String)
    (hr : s.is_running = false) (hsp : ∀ a q, sp a q = .error e) :
    (s.start y p sp).1 = .error ("Failed to start Claude CLI: " ++ e)
    ∧ (s.start y p sp).2 = s
    ∧ (s.start y p sp).2.is_running = false
    ∧ (s.start y p sp).2.process = s.process
    ∧ (s.start y p sp).2.output_buffer = s.output_buffer
    ∧ (∀ sp2 child, (∀ a q, sp2 a q = .ok child) →
        ((s.start y p sp).2.start y p sp2).1 = .ok ()) := by
  have hstep : s.start y p sp
      = (.error ("Failed to start Claude CLI: " ++ e), s) := by
    unfold ClaudeSession.start
    rw [hr]
    simp [hsp]
  rw [hstep]
  refine ⟨rfl, rfl, hr, rfl, rfl, fun sp2 child h2 => ?_⟩
  unfold ClaudeSession.start
  rw [hr]
  simp [h2]

/-- Witness for C10: spawn failure on the fresh session, followed by a
successful retry. -/
theorem start_spawn_failure_atomic_witness :
    (ClaudeSession.new.start false "/tmp" spawnFail).1
        = .error ("Failed to start Claude CLI: " ++ "mock")
    ∧ (ClaudeSession.new.start false "/tmp" spawnFail).2 = ClaudeSession.new
    ∧ (((ClaudeSession.new.start false "/tmp" spawnFail).2.start
          false "/tmp" spawnOk).1 = .ok ()) :=
  ⟨(start_spawn_failure_atomic ClaudeSession.new false "/tmp" spawnFail "mock"
      rfl (fun _ _ => rfl)).1,
   (start_spawn_failure_atomic ClaudeSession.new false "/tmp" spawnFail "mock"
      rfl (fun _ _ => rfl)).2.1,
   (start_spawn_failure_atomic ClaudeSession.new false "/tmp" spawnFail "mock"
      rfl (fun _ _ => rfl)).2.2.2.2.2 spawnOk _ (fun _ _ => rfl)⟩

end Hydra
